import Mathlib

/-!
Verification development for the Smart_News_Aggregator ingestion pipeline.

The Python scrapers under `Smart_News_Aggregator/Scrapers/` and the tool layer
in `agent.py`, `mcp_server.py` and `guardrails.py` are shallowly embedded here.
Network effects are modelled by a `World` record supplying the outcome of each
fetch; Python exceptions are modelled with `Except PyErr`, and the
`try ... except` idiom by pattern matching on the `Except` value.
-/

/-- Kinds of Python exceptions that can arise in the embedded code paths:
`httpError` for network failures and `raise_for_status` on a non-2xx response,
`attributeError` for calling a method on `None` (e.g. a missing feed tag),
`validationError` for a pydantic model rejecting its input, and `typeError`
for passing `None` where a URL string is required. -/
inductive PyErr where
  | httpError
  | attributeError
  | validationError
  | typeError
  deriving DecidableEq, Repr

/-- Rendering of `str(e)` for an exception, as used by the MCP wrappers when
building `{"status": "error", "error_message": str(e)}`. -/
def pyStr : PyErr → String
  | .httpError => "HTTPError"
  | .attributeError => "AttributeError"
  | .validationError => "ValidationError"
  | .typeError => "TypeError"

/-- Python truthiness of an optional string: `None` and `""` are falsy,
any other string is truthy.  This is the test `item.get("article")` used by
`wrap` in `agent.py`. -/
def truthy : Option String → Bool
  | none => false
  | some s => !(s == "")

/-- Embedding of `tag.get_text(strip=True)` on a tag looked up by attribute
access (`item.title`, `item.link`, ...): if the tag is absent the lookup
yields `None` and the method call raises `AttributeError`; otherwise it
returns the stripped text. -/
def tagText : Option String → Except PyErr String
  | none => .error .attributeError
  | some s => .ok s

/-- Embedding of the Python loop `results = []; for x in xs: results.append(f(x))`
where the body may raise: the first raised exception aborts the whole loop and
propagates, discarding the partial results. -/
def forAppend (f : α → Except PyErr β) : List α → Except PyErr (List β)
  | [] => .ok []
  | x :: xs =>
    match f x with
    | .error e => .error e
    | .ok y =>
      match forAppend f xs with
      | .error e => .error e
      | .ok ys => .ok (y :: ys)

/-- One `item` element of a parsed RSS feed, as seen through BeautifulSoup.
Each field holds the stripped text of the corresponding child tag (or
attribute value), `none` when the tag or attribute is absent. -/
structure RSSItem where
  title : Option String
  link : Option String
  guid : Option String
  pubDate : Option String
  category : Option String
  description : Option String
  dcCreator : Option String
  mediaContentUrl : Option String
  enclosureUrl : Option String
  deriving DecidableEq, Repr

/-- An article page as seen by the paragraph-based extractors
(`extract_article_text`, `extract_un_article`, `extract_ie_article`):
`container` is `some ps` when the source-specific content container is found,
holding the stripped text of its `p` descendants in document order, and
`none` when the container is not found. -/
structure ParaPage where
  container : Option (List String)
  deriving DecidableEq, Repr

/-- A Times of India article page as seen by `extract_toi_article`:
`containerText` is the `get_text(separator="\n", strip=True)` of the
content container when found, `none` when not found. -/
structure TOIPage where
  containerText : Option String
  deriving DecidableEq, Repr

/-- The network environment of one static-feed scraper call: the outcome of
fetching and parsing the RSS feed (`requests.get` + `raise_for_status` +
BeautifulSoup), and the outcome of fetching each article page by URL. -/
structure FeedWorld where
  feedFetch : Except PyErr (List RSSItem)
  articlePage : String → Except PyErr ParaPage

/-- An element of the Times of India RSS index page carrying an `id`
attribute, as matched by `soup.find(id=state_id)`. -/
structure IndexElem where
  elemId : String
  href : Option String
  deriving DecidableEq, Repr

/-- The network environment of a states-scraper call: the outcome of fetching
the RSS index page, of fetching a region feed by URL, and of fetching each
article page by URL. -/
structure StatesWorld where
  indexFetch : Except PyErr (List IndexElem)
  feedFetch : String → Except PyErr (List RSSItem)
  articlePage : String → Except PyErr TOIPage

/-- Log entries mirroring the `print` statements of `states_scraper.py`.
`noLinkFound` carries the offending region key, distinctly from the generic
`errorInScrape` entry produced by the `except` handler. -/
inductive StLog where
  | noLinkFound (stateId : String)
  | fetchingRSS (rssUrl : Option String)
  | scrapingArticle (title : String)
  | couldNotFindBody (url : String)
  | errorScrapingArticle (e : PyErr)
  | errorInScrape (e : PyErr)
  deriving DecidableEq, Repr

/-- Result dict of `scrape_national_top_n` for one item. -/
structure NatRecord where
  title : String
  link : String
  date : Option String
  category : Option String
  article : Option String
  image_url : Option String
  deriving DecidableEq, Repr

/-- Result dict of `scrape_international_top_n` for one item. -/
structure IntlRecord where
  title : String
  link : String
  date : Option String
  description : Option String
  article : Option String
  image_url : Option String
  deriving DecidableEq, Repr

/-- Result dict of `scrape_sports_top_n` for one item. -/
structure SportsRecord where
  title : String
  link : String
  date : Option String
  author : Option String
  article : Option String
  image_url : Option String
  deriving DecidableEq, Repr

/-- Result dict of `scrape_states_top_n` for one item. -/
structure StRecord where
  title : String
  link : String
  date : Option String
  article : Option String
  image_url : Option String
  deriving DecidableEq, Repr

/-- The pydantic model `NewsItem` of `agent.py`: `title`, `link` and `date`
are required strings; `author` and `article` are optional strings defaulting
to `""`; `image_url` is an optional string defaulting to `None`. -/
structure NewsItem where
  title : String
  link : String
  date : String
  author : Option String
  article : Option String
  image_url : Option String
  deriving DecidableEq, Repr

/-- Embedding of `extract_article_text` from `national_scraper.py`: fetch the
article page; on any exception return `None`; if the `articleBody` container
is not found return `None`; otherwise join the paragraph texts with
newlines. -/
def extract_article_text (w : FeedWorld) (url : String) : Option String :=
  match w.articlePage url with
  | .error _ => none
  | .ok page =>
    match page.container with
    | none => none
    | some paras => some (String.intercalate "\n" paras)

/-- Embedding of `extract_un_article` from `international_scraper.py`; the
body is identical in shape to `extract_article_text`, differing only in the
content-container rule, which lives in the world. -/
def extract_un_article (w : FeedWorld) (url : String) : Option String :=
  match w.articlePage url with
  | .error _ => none
  | .ok page =>
    match page.container with
    | none => none
    | some paras => some (String.intercalate "\n" paras)

/-- Embedding of `extract_ie_article` from `sports_scraper.py`; same shape as
`extract_article_text` with the Indian Express container rule. -/
def extract_ie_article (w : FeedWorld) (url : String) : Option String :=
  match w.articlePage url with
  | .error _ => none
  | .ok page =>
    match page.container with
    | none => none
    | some paras => some (String.intercalate "\n" paras)

/-- Embedding of `extract_toi_article` from `states_scraper.py`: fetch the
page; on any exception return `None` logging the error; if the container is
not found return `None` logging the URL; otherwise return the container
text.  The log entries mirror the `print` statements. -/
def extract_toi_article (w : StatesWorld) (url : String) :
    Option String × List StLog :=
  match w.articlePage url with
  | .error e => (none, [.errorScrapingArticle e])
  | .ok page =>
    match page.containerText with
    | none => (none, [.couldNotFindBody url])
    | some t => (some t, [])

/-- Body of the loop of `scrape_national_top_n` for one feed item: `title`
and `link` are read with `get_text` (raising `AttributeError` when the tag
is absent), `pubDate`, `category` and the `media:content` URL are optional,
and the article body comes from `extract_article_text`. -/
def processNatItem (w : FeedWorld) (item : RSSItem) :
    Except PyErr NatRecord := do
  let title ← tagText item.title
  let link ← tagText item.link
  .ok { title := title, link := link, date := item.pubDate,
        category := item.category,
        article := extract_article_text w link,
        image_url := item.mediaContentUrl }

/-- Embedding of `scrape_national_top_n`: fetch the feed (exceptions
propagate, there is no handler), take the first `n` items and process each in
order, appending the result dicts; an exception in the loop propagates. -/
def scrape_national_top_n (w : FeedWorld) (n : Nat) :
    Except PyErr (List NatRecord) := do
  let feed ← w.feedFetch
  forAppend (processNatItem w) (feed.take n)

/-- Body of the loop of `scrape_international_top_n` for one feed item: the
link is taken from the `guid` tag, `pubDate` and `description` are optional,
and the image from the `enclosure` URL. -/
def processIntlItem (w : FeedWorld) (item : RSSItem) :
    Except PyErr IntlRecord := do
  let title ← tagText item.title
  let link ← tagText item.guid
  .ok { title := title, link := link, date := item.pubDate,
        description := item.description,
        article := extract_un_article w link,
        image_url := item.enclosureUrl }

/-- Embedding of `scrape_international_top_n`: fetch the feed (no exception
handler), take the first `n` items and process each in order. -/
def scrape_international_top_n (w : FeedWorld) (n : Nat) :
    Except PyErr (List IntlRecord) := do
  let feed ← w.feedFetch
  forAppend (processIntlItem w) (feed.take n)

/-- Body of the loop of `scrape_sports_top_n` for one feed item: `dc:creator`
is the optional author, the image comes from `media:content`. -/
def processSportsItem (w : FeedWorld) (item : RSSItem) :
    Except PyErr SportsRecord := do
  let title ← tagText item.title
  let link ← tagText item.link
  .ok { title := title, link := link, date := item.pubDate,
        author := item.dcCreator,
        article := extract_ie_article w link,
        image_url := item.mediaContentUrl }

/-- Embedding of `scrape_sports_top_n`: fetch the feed (no exception
handler), take the first `n` items and process each in order. -/
def scrape_sports_top_n (w : FeedWorld) (n : Nat) :
    Except PyErr (List SportsRecord) := do
  let feed ← w.feedFetch
  forAppend (processSportsItem w) (feed.take n)

/-- The item loop of `scrape_states_top_n`: for each item, `title` and `link`
are read with `get_text` (raising on a missing tag, which aborts the loop and
discards the partial results), `pubDate` and the `enclosure` URL are
optional, and the body comes from `extract_toi_article`.  The second
component collects the log entries emitted so far, which survive even when
the loop raises. -/
def statesItems (w : StatesWorld) :
    List RSSItem → Except PyErr (List StRecord) × List StLog
  | [] => (.ok [], [])
  | item :: rest =>
    match tagText item.title with
    | .error e => (.error e, [])
    | .ok title =>
      match tagText item.link with
      | .error e => (.error e, [])
      | .ok link =>
        let (article, elog) := extract_toi_article w link
        let r : StRecord :=
          { title := title, link := link, date := item.pubDate,
            article := article, image_url := item.enclosureUrl }
        match statesItems w rest with
        | (.ok rs, logs) =>
          (.ok (r :: rs), StLog.scrapingArticle title :: (elog ++ logs))
        | (.error e, logs) =>
          (.error e, StLog.scrapingArticle title :: (elog ++ logs))

/-- Embedding of `scrape_states_top_n`: the whole body is wrapped in
`try ... except` returning `[]` on any exception.  Fetch the index page,
look up the first element whose `id` equals `state_id`; if none is found,
log the offending key and return `[]`.  Otherwise read its `href` (passing
`None` to `requests.get` raises, caught by the handler), fetch and parse the
region feed, and process the first `n` items.  Any exception yields `[]`
with an `errorInScrape` log entry after the logs already emitted. -/
def scrape_states_top_n (w : StatesWorld) (state_id : String) (n : Nat) :
    List StRecord × List StLog :=
  match w.indexFetch with
  | .error e => ([], [.errorInScrape e])
  | .ok idx =>
    match idx.find? (fun el => el.elemId == state_id) with
    | none => ([], [.noLinkFound state_id])
    | some el =>
      match el.href with
      | none => ([], [.fetchingRSS none, .errorInScrape .typeError])
      | some rss_url =>
        match w.feedFetch rss_url with
        | .error e => ([], [.fetchingRSS (some rss_url), .errorInScrape e])
        | .ok feed =>
          match statesItems w (feed.take n) with
          | (.ok rs, logs) => (rs, StLog.fetchingRSS (some rss_url) :: logs)
          | (.error e, logs) =>
            ([], StLog.fetchingRSS (some rss_url) ::
                   (logs ++ [.errorInScrape e]))

/-- Constructor call `NewsItem(**item)` for a national-scraper dict: `title`
and `link` are present strings; `date` must be a string, so a `None` date is
rejected by pydantic with a `ValidationError`; there is no `author` key, so
`author` takes its default `""`; the extra `category` key is ignored. -/
def newsItemOfNat (r : NatRecord) : Except PyErr NewsItem :=
  match r.date with
  | none => .error .validationError
  | some d =>
    .ok { title := r.title, link := r.link, date := d, author := some "",
          article := r.article, image_url := r.image_url }

/-- Constructor call `NewsItem(**item)` for an international-scraper dict;
the extra `description` key is ignored, `author` takes its default. -/
def newsItemOfIntl (r : IntlRecord) : Except PyErr NewsItem :=
  match r.date with
  | none => .error .validationError
  | some d =>
    .ok { title := r.title, link := r.link, date := d, author := some "",
          article := r.article, image_url := r.image_url }

/-- Constructor call `NewsItem(**item)` for a sports-scraper dict; the
`author` key is present (possibly `None`). -/
def newsItemOfSports (r : SportsRecord) : Except PyErr NewsItem :=
  match r.date with
  | none => .error .validationError
  | some d =>
    .ok { title := r.title, link := r.link, date := d, author := r.author,
          article := r.article, image_url := r.image_url }

/-- Constructor call `NewsItem(**item)` for a states-scraper dict. -/
def newsItemOfSt (r : StRecord) : Except PyErr NewsItem :=
  match r.date with
  | none => .error .validationError
  | some d =>
    .ok { title := r.title, link := r.link, date := d, author := some "",
          article := r.article, image_url := r.image_url }

/-- Embedding of `wrap` from `agent.py`,
`[NewsItem(**item) for item in items if item.get("article")]`, at a given
dict shape: keep the dicts with a truthy `article` and build a `NewsItem`
from each, in order; a pydantic `ValidationError` propagates out of the
comprehension. -/
def wrap (f : α → Except PyErr NewsItem) (p : α → Option String)
    (items : List α) : Except PyErr (List NewsItem) :=
  forAppend f (items.filter fun r => truthy (p r))

/-- Embedding of `get_national_news` from `agent.py`:
`wrap(scrape_national_top_n(limit))`; exceptions propagate. -/
def get_national_news (w : FeedWorld) (limit : Nat) :
    Except PyErr (List NewsItem) := do
  let items ← scrape_national_top_n w limit
  wrap newsItemOfNat (fun r => r.article) items

/-- Embedding of `get_international_news` from `agent.py`. -/
def get_international_news (w : FeedWorld) (limit : Nat) :
    Except PyErr (List NewsItem) := do
  let items ← scrape_international_top_n w limit
  wrap newsItemOfIntl (fun r => r.article) items

/-- Embedding of `get_sports_news` from `agent.py`. -/
def get_sports_news (w : FeedWorld) (limit : Nat) :
    Except PyErr (List NewsItem) := do
  let items ← scrape_sports_top_n w limit
  wrap newsItemOfSports (fun r => r.article) items

/-- Embedding of `get_states_news` from `agent.py`:
`wrap(scrape_states_top_n(state, limit))`; the scraper itself never raises,
but `wrap` may. -/
def get_states_news (w : StatesWorld) (state : String) (limit : Nat) :
    Except PyErr (List NewsItem) :=
  wrap newsItemOfSt (fun r => r.article)
    (scrape_states_top_n w state limit).1

/-- Modelled from the spec: `Scrapers/entertainment_scraper.py` is imported
by `agent.py` and `mcp_server.py` but is not present in the repository
snapshot.  Per the spec (section 4.3), the Entertainment adapter is a
static-feed adapter of the same shape as the National/Sports family: feed
items with required title and link, optional publish date, per-item article
extraction, records appended in feed order. -/
def scrape_entertainment_top_n (w : FeedWorld) (n : Nat) :
    Except PyErr (List NatRecord) := do
  let feed ← w.feedFetch
  forAppend (processNatItem w) (feed.take n)

/-- Embedding of `get_entertainment_news` from `agent.py`, over the
spec-modelled entertainment scraper. -/
def get_entertainment_news (w : FeedWorld) (limit : Nat) :
    Except PyErr (List NewsItem) := do
  let items ← scrape_entertainment_top_n w limit
  wrap newsItemOfNat (fun r => r.article) items

/-- A response of an MCP wrapper from `mcp_server.py`: either
`{"status": "success", "category": ..., "count": ..., "articles": [...]}`
or `{"status": "error", "error_message": ...}`. -/
inductive MCPResp (α : Type) where
  | success (category : String) (count : Nat) (articles : List α)
  | error (error_message : String)
  deriving DecidableEq, Repr

/-- Embedding of `get_states_news_mcp`: call the scraper directly (no `wrap`
filtering) and report the raw dicts with `count = len(articles)`; the
scraper is total, so the `except` branch of the wrapper is unreachable. -/
def get_states_news_mcp (w : StatesWorld) (state : String) (limit : Nat) :
    MCPResp StRecord :=
  let articles := (scrape_states_top_n w state limit).1
  .success ("states_" ++ state) articles.length articles

/-- Embedding of `get_national_news_mcp`: call the scraper directly; on an
exception return the structured error object, otherwise report the raw
dicts with `count = len(articles)`. -/
def get_national_news_mcp (w : FeedWorld) (limit : Nat) :
    MCPResp NatRecord :=
  match scrape_national_top_n w limit with
  | .ok articles => .success "national" articles.length articles
  | .error e => .error (pyStr e)

/-- Embedding of `get_international_news_mcp`. -/
def get_international_news_mcp (w : FeedWorld) (limit : Nat) :
    MCPResp IntlRecord :=
  match scrape_international_top_n w limit with
  | .ok articles => .success "international" articles.length articles
  | .error e => .error (pyStr e)

/-- Embedding of `get_sports_news_mcp`. -/
def get_sports_news_mcp (w : FeedWorld) (limit : Nat) :
    MCPResp SportsRecord :=
  match scrape_sports_top_n w limit with
  | .ok articles => .success "sports" articles.length articles
  | .error e => .error (pyStr e)

/-- Embedding of `get_entertainment_news_mcp`, over the spec-modelled
entertainment scraper. -/
def get_entertainment_news_mcp (w : FeedWorld) (limit : Nat) :
    MCPResp NatRecord :=
  match scrape_entertainment_top_n w limit with
  | .ok articles => .success "entertainment" articles.length articles
  | .error e => .error (pyStr e)

/-- The `VALID_STATES` set shared by `guardrails.py` and `agent.py`. -/
def VALID_STATES : List String :=
  ["mumbai", "delhi", "bengaluru", "kolkata", "chennai", "pune",
   "hyderabad", "ahmedabad", "maharashtra", "karnataka",
   "west bengal", "tamil nadu", "gujarat", "uttar pradesh",
   "rajasthan", "punjab", "kerala", "andhra pradesh", "goa"]

/-- A structured guardrail rejection `{"status": "error", "error_message": ...}`. -/
structure GuardResult where
  status : String
  error_message : String
  deriving DecidableEq, Repr

/-- A single-quote character, for building the error message of
`tool_guardrail` exactly as the Python f-string does. -/
def squote : String := String.singleton (Char.ofNat 39)

/-- Embedding of Python `str.lower()`: lowercase every character. -/
def pyLower (s : String) : String := String.mk (s.data.map Char.toLower)

/-- Embedding of Python `str.strip()`: drop whitespace from both ends. -/
def pyStrip (s : String) : String :=
  String.mk
    (((s.data.dropWhile Char.isWhitespace).reverse.dropWhile
        Char.isWhitespace).reverse)

/-- Embedding of `tool_guardrail` from `guardrails.py` / `agent.py`: only the
tool named `get_states_news` is screened.  Its `state` argument (defaulting
to `""` when the key is absent) is lowercased and stripped; an empty result
or one outside `VALID_STATES` yields a structured error dict, otherwise the
call proceeds (`None`).  Every other tool proceeds unconditionally. -/
def tool_guardrail (toolName : String) (stateArg : Option String) :
    Option GuardResult :=
  if toolName == "get_states_news" then
    let state := pyStrip (pyLower (stateArg.getD ""))
    if state == "" then
      some { status := "error",
             error_message :=
               "You asked for state news but did not provide a state or city." }
    else if !(VALID_STATES.contains state) then
      some { status := "error",
             error_message :=
               "Policy Error: " ++ squote ++ state ++ squote ++
                 " is not a valid state or city." }
    else none
  else none

/-! ### Concrete worlds used by witnesses and counterexamples -/

/-- A feed item with only the fields the scrapers read; unset metadata is
absent. -/
def mkItem (t l g d : Option String) : RSSItem :=
  { title := t, link := l, guid := g, pubDate := d, category := none,
    description := none, dcCreator := none, mediaContentUrl := none,
    enclosureUrl := none }

def pageGood : ParaPage := ⟨some ["Body paragraph."]⟩

def pageMissing : ParaPage := ⟨none⟩

def itemOne : RSSItem := mkItem (some "T1") (some "L1") (some "L1") (some "D1")

def itemTwo : RSSItem := mkItem (some "T2") (some "L2") (some "L2") (some "D2")

def itemNoDate : RSSItem := mkItem (some "T3") (some "L1") (some "L1") none

def itemNoTitle : RSSItem :=
  mkItem none (some "L1") (some "L1") (some "D4")

/-- A feed of two items; the article behind `L1` extracts, the one behind
`L2` has no recognisable content container. -/
def wTwo : FeedWorld :=
  ⟨.ok [itemOne, itemTwo],
   fun u => if u == "L1" then .ok pageGood else .ok pageMissing⟩

/-- A world whose feed endpoint is down (HTTP 500 → `raise_for_status`). -/
def wDown : FeedWorld := ⟨.error .httpError, fun _ => .ok pageMissing⟩

/-- A world whose article pages are unreachable. -/
def wPageErr : FeedWorld := ⟨.ok [itemOne], fun _ => .error .httpError⟩

/-- A feed whose single entry lacks a `pubDate` but extracts fine. -/
def wNoDate : FeedWorld := ⟨.ok [itemNoDate], fun _ => .ok pageGood⟩

/-- A feed whose first entry lacks a title and whose second is fine. -/
def wNoTitle : FeedWorld :=
  ⟨.ok [itemNoTitle, itemOne],
   fun u => if u == "L1" then .ok pageGood else .ok pageMissing⟩

def recOne : NatRecord :=
  ⟨"T1", "L1", some "D1", none, some "Body paragraph.", none⟩

def recTwo : NatRecord := ⟨"T2", "L2", some "D2", none, none, none⟩

def newsOne : NewsItem :=
  ⟨"T1", "L1", "D1", some "", some "Body paragraph.", none⟩

def stItemOne : RSSItem := mkItem (some "S1") (some "SL1") none (some "SD1")

/-- A states world whose index page lists only the `delhi` region feed. -/
def stWorld : StatesWorld :=
  ⟨.ok [⟨"delhi", some "F1"⟩],
   fun u => if u == "F1" then .ok [stItemOne] else .error .httpError,
   fun u => if u == "SL1" then .ok ⟨some "State body."⟩ else .ok ⟨none⟩⟩

/-- A states world whose index page is unreachable. -/
def stWorldDown : StatesWorld :=
  ⟨.error .httpError, fun _ => .error .httpError, fun _ => .error .httpError⟩

/-- A states world whose index resolves `badfeed` to a feed URL `F2` whose
fetch fails. -/
def stWorldBadFeed : StatesWorld :=
  ⟨.ok [⟨"delhi", some "F1"⟩, ⟨"badfeed", some "F2"⟩],
   fun u => if u == "F1" then .ok [stItemOne] else .error .httpError,
   fun _ => .ok ⟨none⟩⟩

def stRecOne : StRecord := ⟨"S1", "SL1", some "SD1", some "State body.", none⟩

/-! ### Generic lemmas about the embedded loop and `wrap` -/

theorem forAppend_cons_ok {f : α → Except PyErr β} {x : α} {xs : List α}
    {ys : List β} (h : forAppend f (x :: xs) = .ok ys) :
    ∃ y ys2, f x = .ok y ∧ forAppend f xs = .ok ys2 ∧ ys = y :: ys2 := by
  unfold forAppend at h
  cases hfx : f x with
  | error e => rw [hfx] at h; cases h
  | ok y =>
    rw [hfx] at h
    cases hr : forAppend f xs with
    | error e => rw [hr] at h; cases h
    | ok ys2 =>
      rw [hr] at h
      cases h
      exact ⟨y, ys2, rfl, rfl, rfl⟩

theorem forAppend_ok_length {f : α → Except PyErr β} :
    ∀ {xs : List α} {ys : List β},
      forAppend f xs = .ok ys → ys.length = xs.length := by
  intro xs
  induction xs with
  | nil => intro ys h; cases h; rfl
  | cons x xs ih =>
    intro ys h
    obtain ⟨y, ys2, _, hr, rfl⟩ := forAppend_cons_ok h
    simp [ih hr]

theorem forAppend_ok_mem {f : α → Except PyErr β} :
    ∀ {xs : List α} {ys : List β}, forAppend f xs = .ok ys →
      ∀ y ∈ ys, ∃ x ∈ xs, f x = .ok y := by
  intro xs
  induction xs with
  | nil => intro ys h; cases h; intro y hy; cases hy
  | cons x xs ih =>
    intro ys h
    obtain ⟨y, ys2, hfx, hr, rfl⟩ := forAppend_cons_ok h
    intro z hz
    rcases List.mem_cons.mp hz with rfl | hz2
    · exact ⟨x, List.mem_cons_self x xs, hfx⟩
    · obtain ⟨x2, hx2, hfx2⟩ := ih hr z hz2
      exact ⟨x2, List.mem_cons_of_mem x hx2, hfx2⟩

theorem forAppend_ok_map {f : α → Except PyErr β} (g : β → γ) (q : α → γ)
    (hgq : ∀ x y, f x = .ok y → g y = q x) :
    ∀ {xs : List α} {ys : List β},
      forAppend f xs = .ok ys → ys.map g = xs.map q := by
  intro xs
  induction xs with
  | nil => intro ys h; cases h; rfl
  | cons x xs ih =>
    intro ys h
    obtain ⟨y, ys2, hfx, hr, rfl⟩ := forAppend_cons_ok h
    simp [hgq x y hfx, ih hr]

theorem wrap_ok_mem {f : α → Except PyErr NewsItem} {p : α → Option String}
    {items : List α} {l : List NewsItem} (h : wrap f p items = .ok l) :
    ∀ y ∈ l, ∃ r ∈ items, truthy (p r) = true ∧ f r = .ok y := by
  intro y hy
  obtain ⟨r, hr, hfr⟩ := forAppend_ok_mem h y hy
  have hmem := List.mem_filter.mp hr
  exact ⟨r, hmem.1, hmem.2, hfr⟩

theorem wrap_ok_length {f : α → Except PyErr NewsItem} {p : α → Option String}
    {items : List α} {l : List NewsItem} (h : wrap f p items = .ok l) :
    l.length = (items.filter fun r => truthy (p r)).length :=
  forAppend_ok_length h

/-- Core counting argument for the bounded-size property: a predicate filter
over a list of length `min n m` has length at most `n`, and is shorter than
`n` iff some element fails the predicate or `m < n`. -/
theorem bounded_size_core (n m : Nat) (p : α → Bool) (items : List α)
    (hlen : items.length = min n m) :
    (items.filter p).length ≤ n ∧
      ((items.filter p).length < n ↔ (∃ r ∈ items, ¬ p r) ∨ m < n) := by
  have hle := List.length_filter_le p items
  constructor
  · omega
  · constructor
    · intro hlt
      by_cases hex : ∃ r ∈ items, ¬ p r
      · exact .inl hex
      · right
        push_neg at hex
        have hself : items.filter p = items := List.filter_eq_self.mpr hex
        rw [hself] at hlt
        omega
    · rintro (hex | hmn)
      · have hflt := List.length_filter_lt_length_iff_exists.mpr hex
        omega
      · omega

/-! ### Inversion lemmas for the embedded constructors and loops -/

theorem newsItemOfNat_ok {r : NatRecord} {y : NewsItem}
    (h : newsItemOfNat r = .ok y) :
    ∃ d, r.date = some d ∧
      y = ⟨r.title, r.link, d, some "", r.article, r.image_url⟩ := by
  unfold newsItemOfNat at h
  cases hd : r.date with
  | none => rw [hd] at h; cases h
  | some d => rw [hd] at h; cases h; exact ⟨d, rfl, rfl⟩

theorem newsItemOfIntl_ok {r : IntlRecord} {y : NewsItem}
    (h : newsItemOfIntl r = .ok y) :
    ∃ d, r.date = some d ∧
      y = ⟨r.title, r.link, d, some "", r.article, r.image_url⟩ := by
  unfold newsItemOfIntl at h
  cases hd : r.date with
  | none => rw [hd] at h; cases h
  | some d => rw [hd] at h; cases h; exact ⟨d, rfl, rfl⟩

theorem newsItemOfSports_ok {r : SportsRecord} {y : NewsItem}
    (h : newsItemOfSports r = .ok y) :
    ∃ d, r.date = some d ∧
      y = ⟨r.title, r.link, d, r.author, r.article, r.image_url⟩ := by
  unfold newsItemOfSports at h
  cases hd : r.date with
  | none => rw [hd] at h; cases h
  | some d => rw [hd] at h; cases h; exact ⟨d, rfl, rfl⟩

theorem newsItemOfSt_ok {r : StRecord} {y : NewsItem}
    (h : newsItemOfSt r = .ok y) :
    ∃ d, r.date = some d ∧
      y = ⟨r.title, r.link, d, some "", r.article, r.image_url⟩ := by
  unfold newsItemOfSt at h
  cases hd : r.date with
  | none => rw [hd] at h; cases h
  | some d => rw [hd] at h; cases h; exact ⟨d, rfl, rfl⟩

/-- Any `NewsItem` produced by `wrap` has a truthy (non-empty, non-`None`)
`article` field, provided the constructor preserves the filtered field. -/
theorem wrap_keeps_truthy {f : α → Except PyErr NewsItem}
    {p : α → Option String}
    (hf : ∀ r y, f r = .ok y → y.article = p r)
    {items : List α} {l : List NewsItem} (h : wrap f p items = .ok l) :
    ∀ x ∈ l, truthy x.article = true := by
  intro x hx
  obtain ⟨r, _, htr, hfr⟩ := wrap_ok_mem h x hx
  rw [hf r x hfr]
  exact htr

theorem processNatItem_ok {w : FeedWorld} {i : RSSItem} {r : NatRecord}
    (h : processNatItem w i = .ok r) :
    i.title = some r.title ∧ i.link = some r.link ∧ r.date = i.pubDate ∧
      r.article = extract_article_text w r.link := by
  unfold processNatItem at h
  cases ht : i.title with
  | none => simp [tagText, ht, Bind.bind, Except.bind] at h
  | some t =>
    cases hl : i.link with
    | none => simp [tagText, ht, hl, Bind.bind, Except.bind] at h
    | some lk =>
      simp only [tagText, ht, hl, Bind.bind, Except.bind] at h
      cases h
      exact ⟨rfl, rfl, rfl, rfl⟩

theorem processIntlItem_ok {w : FeedWorld} {i : RSSItem} {r : IntlRecord}
    (h : processIntlItem w i = .ok r) :
    i.title = some r.title ∧ i.guid = some r.link ∧ r.date = i.pubDate ∧
      r.article = extract_un_article w r.link := by
  unfold processIntlItem at h
  cases ht : i.title with
  | none => simp [tagText, ht, Bind.bind, Except.bind] at h
  | some t =>
    cases hl : i.guid with
    | none => simp [tagText, ht, hl, Bind.bind, Except.bind] at h
    | some lk =>
      simp only [tagText, ht, hl, Bind.bind, Except.bind] at h
      cases h
      exact ⟨rfl, rfl, rfl, rfl⟩

theorem processSportsItem_ok {w : FeedWorld} {i : RSSItem} {r : SportsRecord}
    (h : processSportsItem w i = .ok r) :
    i.title = some r.title ∧ i.link = some r.link ∧ r.date = i.pubDate ∧
      r.article = extract_ie_article w r.link := by
  unfold processSportsItem at h
  cases ht : i.title with
  | none => simp [tagText, ht, Bind.bind, Except.bind] at h
  | some t =>
    cases hl : i.link with
    | none => simp [tagText, ht, hl, Bind.bind, Except.bind] at h
    | some lk =>
      simp only [tagText, ht, hl, Bind.bind, Except.bind] at h
      cases h
      exact ⟨rfl, rfl, rfl, rfl⟩

theorem statesItems_ok_proj {w : StatesWorld} :
    ∀ {items : List RSSItem} {rs : List StRecord} {logs : List StLog},
      statesItems w items = (.ok rs, logs) →
      rs.map (fun r => (some r.title, some r.link, r.date,
                        r.article, r.image_url)) =
        items.map (fun i => (i.title, i.link, i.pubDate,
                             (extract_toi_article w (i.link.getD "")).1,
                             i.enclosureUrl)) := by
  intro items
  induction items with
  | nil => intro rs logs h; cases h; rfl
  | cons item rest ih =>
    intro rs logs h
    unfold statesItems at h
    cases ht : item.title with
    | none => rw [ht] at h; simp [tagText] at h
    | some t =>
      cases hl : item.link with
      | none => rw [ht, hl] at h; simp [tagText] at h
      | some lk =>
        rw [ht, hl] at h
        simp only [tagText] at h
        cases hx : extract_toi_article w lk with
        | mk article elog =>
          rw [hx] at h
          cases hrest : statesItems w rest with
          | mk res logs2 =>
            rw [hrest] at h
            cases res with
            | error e => simp at h
            | ok rs2 =>
              simp only [Prod.mk.injEq, Except.ok.injEq] at h
              obtain ⟨rfl, -⟩ := h
              simp only [List.map_cons, ht, hl, hx, Option.getD_some]
              exact congrArg _ (ih hrest)

theorem statesItems_ok_length {w : StatesWorld} {items : List RSSItem}
    {rs : List StRecord} {logs : List StLog}
    (h : statesItems w items = (.ok rs, logs)) : rs.length = items.length := by
  have hmap := statesItems_ok_proj h
  have := congrArg List.length hmap
  simpa using this

theorem scrape_national_unfold {w : FeedWorld} {feed : List RSSItem}
    (h : w.feedFetch = .ok feed) (n : Nat) :
    scrape_national_top_n w n = forAppend (processNatItem w) (feed.take n) := by
  simp [scrape_national_top_n, h, Bind.bind, Except.bind]

theorem scrape_international_unfold {w : FeedWorld} {feed : List RSSItem}
    (h : w.feedFetch = .ok feed) (n : Nat) :
    scrape_international_top_n w n =
      forAppend (processIntlItem w) (feed.take n) := by
  simp [scrape_international_top_n, h, Bind.bind, Except.bind]

theorem scrape_sports_unfold {w : FeedWorld} {feed : List RSSItem}
    (h : w.feedFetch = .ok feed) (n : Nat) :
    scrape_sports_top_n w n = forAppend (processSportsItem w) (feed.take n) := by
  simp [scrape_sports_top_n, h, Bind.bind, Except.bind]

theorem scrape_entertainment_unfold {w : FeedWorld} {feed : List RSSItem}
    (h : w.feedFetch = .ok feed) (n : Nat) :
    scrape_entertainment_top_n w n =
      forAppend (processNatItem w) (feed.take n) := by
  simp [scrape_entertainment_top_n, h, Bind.bind, Except.bind]


/-! ### Claim theorems -/

/-- C7: if the States index page has no element whose id equals the requested
region identifier, `scrape_states_top_n` returns the empty sequence without
raising, logging a `noLinkFound` entry that carries the offending key and is
distinct from the network/parse error entries; and the result is the same
whatever the feed-fetch and article-fetch environments do, so no feed is
fetched. -/
theorem C7_missing_region_key (w : StatesWorld) (sid : String) (n : Nat)
    (idx : List IndexElem)
    (hidx : w.indexFetch = .ok idx)
    (hfind : idx.find? (fun el => el.elemId == sid) = none) :
    scrape_states_top_n w sid n = ([], [.noLinkFound sid]) ∧
    (∀ ff ap,
      scrape_states_top_n
        { indexFetch := w.indexFetch, feedFetch := ff, articlePage := ap }
        sid n = ([], [.noLinkFound sid])) := by
  constructor
  · simp [scrape_states_top_n, hidx, hfind]
  · intro ff ap
    simp [scrape_states_top_n, hidx, hfind]

/-- Witness for C7 at a concrete world: the index lists only `delhi`, the
caller asks for `goa`. -/
theorem C7_missing_region_key_witness :
    scrape_states_top_n stWorld "goa" 3 = ([], [.noLinkFound "goa"]) :=
  (C7_missing_region_key stWorld "goa" 3 [⟨"delhi", some "F1"⟩] rfl rfl).1

/-- C8: each article extractor is total — modelled by its plain
`Option String` return type, every internal raise being caught — and in
particular returns `None` when the page fetch fails and when the
content container is not found, and the container text otherwise. -/
theorem C8_extractors_total (wf : FeedWorld) (ws : StatesWorld)
    (url : String) :
    (∀ e, wf.articlePage url = .error e →
      extract_article_text wf url = none ∧ extract_un_article wf url = none ∧
        extract_ie_article wf url = none) ∧
    (∀ page, wf.articlePage url = .ok page → page.container = none →
      extract_article_text wf url = none ∧ extract_un_article wf url = none ∧
        extract_ie_article wf url = none) ∧
    (∀ page ps, wf.articlePage url = .ok page → page.container = some ps →
      extract_article_text wf url = some (String.intercalate "\n" ps) ∧
        extract_un_article wf url = some (String.intercalate "\n" ps) ∧
        extract_ie_article wf url = some (String.intercalate "\n" ps)) ∧
    (∀ e, ws.articlePage url = .error e →
      extract_toi_article ws url = (none, [.errorScrapingArticle e])) ∧
    (∀ page, ws.articlePage url = .ok page → page.containerText = none →
      extract_toi_article ws url = (none, [.couldNotFindBody url])) ∧
    (∀ page t, ws.articlePage url = .ok page → page.containerText = some t →
      extract_toi_article ws url = (some t, [])) := by
  refine ⟨?_, ?_, ?_, ?_, ?_, ?_⟩
  · intro e h
    refine ⟨?_, ?_, ?_⟩ <;>
      simp [extract_article_text, extract_un_article, extract_ie_article, h]
  · intro page h hc
    refine ⟨?_, ?_, ?_⟩ <;>
      simp [extract_article_text, extract_un_article, extract_ie_article, h, hc]
  · intro page ps h hc
    refine ⟨?_, ?_, ?_⟩ <;>
      simp [extract_article_text, extract_un_article, extract_ie_article, h, hc]
  · intro e h
    simp [extract_toi_article, h]
  · intro page h hc
    simp [extract_toi_article, h, hc]
  · intro page t h hc
    simp [extract_toi_article, h, hc]

/-- Witness for C8: every branch exercised at concrete worlds. -/
theorem C8_extractors_total_witness :
    extract_article_text wPageErr "L1" = none ∧
    extract_article_text wTwo "L2" = none ∧
    extract_article_text wTwo "L1" = some "Body paragraph." ∧
    extract_toi_article stWorldDown "u" =
      (none, [.errorScrapingArticle .httpError]) ∧
    extract_toi_article stWorld "other" = (none, [.couldNotFindBody "other"]) ∧
    extract_toi_article stWorld "SL1" = (some "State body.", []) :=
  ⟨((C8_extractors_total wPageErr stWorld "L1").1 .httpError rfl).1,
   ((C8_extractors_total wTwo stWorld "L2").2.1 pageMissing rfl rfl).1,
   (((C8_extractors_total wTwo stWorld "L1").2.2.1 pageGood
      ["Body paragraph."] rfl rfl).1).trans (by rfl),
   (C8_extractors_total wTwo stWorldDown "u").2.2.2.1 .httpError rfl,
   (C8_extractors_total wTwo stWorld "other").2.2.2.2.1 ⟨none⟩ rfl rfl,
   (C8_extractors_total wTwo stWorld "SL1").2.2.2.2.2 ⟨some "State body."⟩
     "State body." rfl rfl⟩

/-- C9: for a `get_states_news` tool call, `tool_guardrail` blocks with a
structured `{status := "error", error_message := ...}` object exactly when
the lowercased, stripped `state` argument is empty or not in `VALID_STATES`;
it lets valid states and every other tool through with `None`. -/
theorem C9_tool_guardrail_spec (name : String) (arg : Option String) :
    (name = "get_states_news" →
      ((pyStrip (pyLower (arg.getD "")) = "" ∨
          pyStrip (pyLower (arg.getD "")) ∉ VALID_STATES) →
        ∃ msg, tool_guardrail name arg =
          some { status := "error", error_message := msg }) ∧
      (pyStrip (pyLower (arg.getD "")) ∈ VALID_STATES →
        tool_guardrail name arg = none)) ∧
    (name ≠ "get_states_news" → tool_guardrail name arg = none) := by
  constructor
  · rintro rfl
    constructor
    · intro hbad
      by_cases hemp : pyStrip (pyLower (arg.getD "")) = ""
      · refine ⟨"You asked for state news but did not provide a state or city.",
          ?_⟩
        simp [tool_guardrail, hemp]
      · have hnm : pyStrip (pyLower (arg.getD "")) ∉ VALID_STATES := by
          rcases hbad with h | h
          · exact absurd h hemp
          · exact h
        refine ⟨"Policy Error: " ++ squote ++ pyStrip (pyLower (arg.getD "")) ++
          squote ++ " is not a valid state or city.", ?_⟩
        simp only [tool_guardrail, beq_self_eq_true, if_true]
        rw [if_neg, if_pos]
        · simp [List.contains, hnm]
        · simpa using hemp
    · intro hmem
      have hemp : ¬(pyStrip (pyLower (arg.getD "")) = "") := by
        intro h
        rw [h] at hmem
        simp [VALID_STATES] at hmem
      simp only [tool_guardrail, beq_self_eq_true, if_true]
      rw [if_neg, if_neg]
      · simp [List.contains, hmem]
      · simpa using hemp
  · intro hne
    simp [tool_guardrail, hne]

/-- Witness for C9: a valid state (after normalisation) passes, an unknown
one and a missing one are blocked, and another tool is never screened. -/
theorem C9_tool_guardrail_spec_witness :
    tool_guardrail "get_states_news" (some " Delhi ") = none ∧
    (∃ msg, tool_guardrail "get_states_news" (some "atlantis") =
      some { status := "error", error_message := msg }) ∧
    (∃ msg, tool_guardrail "get_states_news" none =
      some { status := "error", error_message := msg }) ∧
    tool_guardrail "get_national_news" none = none :=
  ⟨((C9_tool_guardrail_spec "get_states_news" (some " Delhi ")).1 rfl).2
     (by decide),
   ((C9_tool_guardrail_spec "get_states_news" (some "atlantis")).1 rfl).1
     (.inr (by decide)),
   ((C9_tool_guardrail_spec "get_states_news" none).1 rfl).1
     (.inl (by decide)),
   (C9_tool_guardrail_spec "get_national_news" none).2 (by decide)⟩

/-- C10: every success response of an MCP wrapper reports `count` equal to
the length of its `articles` list. -/
theorem C10_mcp_count_eq_length (wf : FeedWorld) (ws : StatesWorld)
    (state : String) (limit : Nat) :
    (∀ c k a, get_states_news_mcp ws state limit = .success c k a →
      k = a.length) ∧
    (∀ c k a, get_national_news_mcp wf limit = .success c k a →
      k = a.length) ∧
    (∀ c k a, get_international_news_mcp wf limit = .success c k a →
      k = a.length) ∧
    (∀ c k a, get_sports_news_mcp wf limit = .success c k a →
      k = a.length) ∧
    (∀ c k a, get_entertainment_news_mcp wf limit = .success c k a →
      k = a.length) := by
  refine ⟨?_, ?_, ?_, ?_, ?_⟩
  · intro c k a h
    unfold get_states_news_mcp at h
    cases h
    rfl
  · intro c k a h
    unfold get_national_news_mcp at h
    cases hs : scrape_national_top_n wf limit with
    | error e => rw [hs] at h; cases h
    | ok arts => rw [hs] at h; cases h; rfl
  · intro c k a h
    unfold get_international_news_mcp at h
    cases hs : scrape_international_top_n wf limit with
    | error e => rw [hs] at h; cases h
    | ok arts => rw [hs] at h; cases h; rfl
  · intro c k a h
    unfold get_sports_news_mcp at h
    cases hs : scrape_sports_top_n wf limit with
    | error e => rw [hs] at h; cases h
    | ok arts => rw [hs] at h; cases h; rfl
  · intro c k a h
    unfold get_entertainment_news_mcp at h
    cases hs : scrape_entertainment_top_n wf limit with
    | error e => rw [hs] at h; cases h
    | ok arts => rw [hs] at h; cases h; rfl

/-- Witness for C10 at the two-item national world and the states world. -/
theorem C10_mcp_count_eq_length_witness :
    (2 : Nat) = [recOne, recTwo].length ∧ (1 : Nat) = [stRecOne].length :=
  ⟨(C10_mcp_count_eq_length wTwo stWorld "delhi" 2).2.1 "national" 2
     [recOne, recTwo] rfl,
   (C10_mcp_count_eq_length wTwo stWorld "delhi" 2).1 "states_delhi" 1
     [stRecOne] rfl⟩

/-- Counterexample to C2 as stated: with the national feed endpoint down
(HTTP 500, so `raise_for_status` raises), the national aggregation does not
return an empty sequence — the exception propagates out of
`scrape_national_top_n` and `get_national_news` into caller code. -/
theorem C2_counterexample :
    scrape_national_top_n wDown 5 = .error .httpError ∧
    get_national_news wDown 5 = .error .httpError ∧
    get_national_news wDown 5 ≠ .ok [] :=
  ⟨rfl, rfl, by intro h; cases h.symm.trans (rfl :
      get_national_news wDown 5 = .error .httpError)⟩

/-- C2 as amended: only the States source swallows a failed fetch, returning
`[]` with an error log (both when the index fetch and when the region feed
fetch fail); for the national, international and sports sources a failed
feed fetch raises past the scraper and the agent-level aggregation function,
and it is the MCP wrapper layer that converts the exception into a
structured error object rather than an empty sequence. -/
theorem C2_feed_failure_behaviour :
    (∀ (w : StatesWorld) sid n e, w.indexFetch = .error e →
      scrape_states_top_n w sid n = ([], [.errorInScrape e])) ∧
    (∀ (w : StatesWorld) sid n idx el u e,
      w.indexFetch = .ok idx →
      idx.find? (fun x => x.elemId == sid) = some el →
      el.href = some u →
      w.feedFetch u = .error e →
      scrape_states_top_n w sid n =
        ([], [.fetchingRSS (some u), .errorInScrape e])) ∧
    (∀ (w : FeedWorld) n e, w.feedFetch = .error e →
      scrape_national_top_n w n = .error e ∧
      get_national_news w n = .error e ∧
      get_national_news_mcp w n = .error (pyStr e)) ∧
    (∀ (w : FeedWorld) n e, w.feedFetch = .error e →
      scrape_international_top_n w n = .error e ∧
      get_international_news w n = .error e ∧
      get_international_news_mcp w n = .error (pyStr e)) ∧
    (∀ (w : FeedWorld) n e, w.feedFetch = .error e →
      scrape_sports_top_n w n = .error e ∧
      get_sports_news w n = .error e ∧
      get_sports_news_mcp w n = .error (pyStr e)) := by
  refine ⟨?_, ?_, ?_, ?_, ?_⟩
  · intro w sid n e h
    simp [scrape_states_top_n, h]
  · intro w sid n idx el u e hidx hfind hhref hfeed
    simp [scrape_states_top_n, hidx, hfind, hhref, hfeed]
  · intro w n e h
    have hs : scrape_national_top_n w n = .error e := by
      simp [scrape_national_top_n, h, Bind.bind, Except.bind]
    exact ⟨hs, by simp [get_national_news, hs, Bind.bind, Except.bind],
      by simp [get_national_news_mcp, hs]⟩
  · intro w n e h
    have hs : scrape_international_top_n w n = .error e := by
      simp [scrape_international_top_n, h, Bind.bind, Except.bind]
    exact ⟨hs, by simp [get_international_news, hs, Bind.bind, Except.bind],
      by simp [get_international_news_mcp, hs]⟩
  · intro w n e h
    have hs : scrape_sports_top_n w n = .error e := by
      simp [scrape_sports_top_n, h, Bind.bind, Except.bind]
    exact ⟨hs, by simp [get_sports_news, hs, Bind.bind, Except.bind],
      by simp [get_sports_news_mcp, hs]⟩

/-- Witness for C2 amended, at concrete down worlds. -/
theorem C2_feed_failure_behaviour_witness :
    scrape_states_top_n stWorldDown "delhi" 3 =
      ([], [.errorInScrape .httpError]) ∧
    scrape_states_top_n stWorldBadFeed "badfeed" 1 =
      ([], [.fetchingRSS (some "F2"), .errorInScrape .httpError]) ∧
    scrape_national_top_n wDown 5 = .error .httpError ∧
    get_international_news wDown 5 = .error .httpError ∧
    get_sports_news_mcp wDown 5 = .error "HTTPError" :=
  ⟨C2_feed_failure_behaviour.1 stWorldDown "delhi" 3 .httpError rfl,
   C2_feed_failure_behaviour.2.1 stWorldBadFeed "badfeed" 1
     [⟨"delhi", some "F1"⟩, ⟨"badfeed", some "F2"⟩] ⟨"badfeed", some "F2"⟩
     "F2" .httpError rfl rfl rfl rfl,
   (C2_feed_failure_behaviour.2.2.1 wDown 5 .httpError rfl).1,
   (C2_feed_failure_behaviour.2.2.2.1 wDown 5 .httpError rfl).2.1,
   (C2_feed_failure_behaviour.2.2.2.2 wDown 5 .httpError rfl).2.2⟩

theorem forAppend_cons_error {f : α → Except PyErr β} {x : α} {xs : List α}
    {e : PyErr} (h : f x = .error e) : forAppend f (x :: xs) = .error e := by
  unfold forAppend
  rw [h]

theorem processNatItem_noTitle {w : FeedWorld} {i : RSSItem}
    (h : i.title = none) : processNatItem w i = .error .attributeError := by
  simp [processNatItem, tagText, h, Bind.bind, Except.bind]

theorem processIntlItem_noTitle {w : FeedWorld} {i : RSSItem}
    (h : i.title = none) : processIntlItem w i = .error .attributeError := by
  simp [processIntlItem, tagText, h, Bind.bind, Except.bind]

theorem processSportsItem_noTitle {w : FeedWorld} {i : RSSItem}
    (h : i.title = none) : processSportsItem w i = .error .attributeError := by
  simp [processSportsItem, tagText, h, Bind.bind, Except.bind]

theorem statesItems_noTitle {w : StatesWorld} {i : RSSItem}
    {rest : List RSSItem} (h : i.title = none) :
    statesItems w (i :: rest) = (.error .attributeError, []) := by
  unfold statesItems
  rw [h]
  rfl

/-- Counterexample to C4 as stated: in a two-item national feed whose first
entry lacks a title, the whole scrape raises `AttributeError` instead of
skipping the bad entry and returning the record of the good one. -/
theorem C4_counterexample :
    scrape_national_top_n wNoTitle 2 = .error .attributeError ∧
    scrape_national_top_n wNoTitle 2 ≠ .ok [recOne] :=
  ⟨rfl, by
    intro h
    cases h.symm.trans (rfl :
      scrape_national_top_n wNoTitle 2 = .error .attributeError)⟩

/-- C4 as amended: an entry lacking a title is not skipped — reading its
title raises `AttributeError`, which is fatal to the whole feed: for the
national, international and sports scrapers the exception propagates out of
the scraper (no later entry is processed, no partial result is returned),
and for the states scraper the handler catches it and the entire call
returns `[]`. -/
theorem C4_missing_title_fatal :
    (∀ (w : FeedWorld) (item : RSSItem) (rest : List RSSItem) n,
      w.feedFetch = .ok (item :: rest) → item.title = none → 0 < n →
      scrape_national_top_n w n = .error .attributeError) ∧
    (∀ (w : FeedWorld) (item : RSSItem) (rest : List RSSItem) n,
      w.feedFetch = .ok (item :: rest) → item.title = none → 0 < n →
      scrape_international_top_n w n = .error .attributeError) ∧
    (∀ (w : FeedWorld) (item : RSSItem) (rest : List RSSItem) n,
      w.feedFetch = .ok (item :: rest) → item.title = none → 0 < n →
      scrape_sports_top_n w n = .error .attributeError) ∧
    (∀ (w : StatesWorld) sid n idx el u (item : RSSItem) rest,
      w.indexFetch = .ok idx →
      idx.find? (fun x => x.elemId == sid) = some el →
      el.href = some u →
      w.feedFetch u = .ok (item :: rest) → item.title = none → 0 < n →
      scrape_states_top_n w sid n =
        ([], [.fetchingRSS (some u), .errorInScrape .attributeError])) := by
  refine ⟨?_, ?_, ?_, ?_⟩
  · intro w item rest n hfeed htitle hn
    obtain ⟨m, rfl⟩ := Nat.exists_eq_add_of_lt hn
    rw [scrape_national_unfold hfeed]
    simp only [Nat.zero_add, List.take_succ_cons]
    exact forAppend_cons_error (processNatItem_noTitle htitle)
  · intro w item rest n hfeed htitle hn
    obtain ⟨m, rfl⟩ := Nat.exists_eq_add_of_lt hn
    rw [scrape_international_unfold hfeed]
    simp only [Nat.zero_add, List.take_succ_cons]
    exact forAppend_cons_error (processIntlItem_noTitle htitle)
  · intro w item rest n hfeed htitle hn
    obtain ⟨m, rfl⟩ := Nat.exists_eq_add_of_lt hn
    rw [scrape_sports_unfold hfeed]
    simp only [Nat.zero_add, List.take_succ_cons]
    exact forAppend_cons_error (processSportsItem_noTitle htitle)
  · intro w sid n idx el u item rest hidx hfind hhref hfeed htitle hn
    obtain ⟨m, rfl⟩ := Nat.exists_eq_add_of_lt hn
    simp only [scrape_states_top_n, hidx, hfind, hhref, hfeed,
      Nat.zero_add, List.take_succ_cons,
      statesItems_noTitle htitle]
    rfl

/-- Witness for C4 amended, at the concrete no-title world. -/
theorem C4_missing_title_fatal_witness :
    scrape_national_top_n wNoTitle 2 = .error .attributeError :=
  C4_missing_title_fatal.1 wNoTitle itemNoTitle [itemOne] 2 rfl rfl
    (by decide)

/-- Counterexample to C1 as stated: the MCP wrapper `get_national_news_mcp`
returns the raw scraper dicts, so a record whose article extraction failed
(`articleBody` absent) is returned to the downstream consumer. -/
theorem C1_counterexample :
    get_national_news_mcp wTwo 2 = .success "national" 2 [recOne, recTwo] ∧
    recTwo.article = none :=
  ⟨rfl, rfl⟩

/-- C1 as amended: the agent-level aggregation functions (`get_states_news`,
`get_national_news`, `get_international_news`, `get_sports_news`,
`get_entertainment_news`) return only records with a truthy (non-empty,
present) article body, because `wrap` filters on `item.get("article")`; the
MCP wrappers, which bypass `wrap`, do not have this property. -/
theorem C1_agent_results_have_body :
    (∀ (w : FeedWorld) n l, get_national_news w n = .ok l →
      ∀ x ∈ l, truthy x.article = true) ∧
    (∀ (w : FeedWorld) n l, get_international_news w n = .ok l →
      ∀ x ∈ l, truthy x.article = true) ∧
    (∀ (w : FeedWorld) n l, get_sports_news w n = .ok l →
      ∀ x ∈ l, truthy x.article = true) ∧
    (∀ (w : FeedWorld) n l, get_entertainment_news w n = .ok l →
      ∀ x ∈ l, truthy x.article = true) ∧
    (∀ (w : StatesWorld) s n l, get_states_news w s n = .ok l →
      ∀ x ∈ l, truthy x.article = true) := by
  refine ⟨?_, ?_, ?_, ?_, ?_⟩
  · intro w n l h
    unfold get_national_news at h
    cases hs : scrape_national_top_n w n with
    | error e => rw [hs] at h; simp [Bind.bind, Except.bind] at h
    | ok items =>
      rw [hs] at h
      simp only [Bind.bind, Except.bind] at h
      exact wrap_keeps_truthy
        (fun r y hy => by obtain ⟨d, -, rfl⟩ := newsItemOfNat_ok hy; rfl) h
  · intro w n l h
    unfold get_international_news at h
    cases hs : scrape_international_top_n w n with
    | error e => rw [hs] at h; simp [Bind.bind, Except.bind] at h
    | ok items =>
      rw [hs] at h
      simp only [Bind.bind, Except.bind] at h
      exact wrap_keeps_truthy
        (fun r y hy => by obtain ⟨d, -, rfl⟩ := newsItemOfIntl_ok hy; rfl) h
  · intro w n l h
    unfold get_sports_news at h
    cases hs : scrape_sports_top_n w n with
    | error e => rw [hs] at h; simp [Bind.bind, Except.bind] at h
    | ok items =>
      rw [hs] at h
      simp only [Bind.bind, Except.bind] at h
      exact wrap_keeps_truthy
        (fun r y hy => by obtain ⟨d, -, rfl⟩ := newsItemOfSports_ok hy; rfl) h
  · intro w n l h
    unfold get_entertainment_news at h
    cases hs : scrape_entertainment_top_n w n with
    | error e => rw [hs] at h; simp [Bind.bind, Except.bind] at h
    | ok items =>
      rw [hs] at h
      simp only [Bind.bind, Except.bind] at h
      exact wrap_keeps_truthy
        (fun r y hy => by obtain ⟨d, -, rfl⟩ := newsItemOfNat_ok hy; rfl) h
  · intro w s n l h
    unfold get_states_news at h
    exact wrap_keeps_truthy
      (fun r y hy => by obtain ⟨d, -, rfl⟩ := newsItemOfSt_ok hy; rfl) h

/-- Witness for C1 amended, at the two-item world where one extraction
fails: the single surviving agent-level record has a truthy body. -/
theorem C1_agent_results_have_body_witness :
    ∀ x ∈ [newsOne], truthy x.article = true :=
  C1_agent_results_have_body.1 wTwo 2 [newsOne] rfl

/-- C3 (code bug): a feed entry with title and link but no `pubDate`, whose
article extraction succeeds, makes the agent-level aggregation fail with a
pydantic `ValidationError` instead of returning the record with the date
absent — the scraper produces the record with `date = None`, and
`NewsItem.date : str` rejects it inside `wrap`. -/
theorem C3_missing_date_breaks_wrap :
    scrape_national_top_n wNoDate 1 =
      .ok [⟨"T3", "L1", none, none, some "Body paragraph.", none⟩] ∧
    get_national_news wNoDate 1 = .error .validationError :=
  ⟨rfl, rfl⟩

/-- C5: for every agent-level aggregation call with limit `n` and every
feed, the returned sequence has at most `n` elements, and has fewer than
`n` exactly when the extraction of one of the first `n` items failed (its
record has a falsy article body) or the feed held fewer than `n` items. -/
theorem C5_bounded_size :
    (∀ (w : FeedWorld) n feed rs l,
      w.feedFetch = .ok feed →
      scrape_national_top_n w n = .ok rs →
      wrap newsItemOfNat (fun r => r.article) rs = .ok l →
      get_national_news w n = .ok l ∧ l.length ≤ n ∧
        (l.length < n ↔ (∃ r ∈ rs, ¬ truthy r.article) ∨ feed.length < n)) ∧
    (∀ (w : FeedWorld) n feed rs l,
      w.feedFetch = .ok feed →
      scrape_international_top_n w n = .ok rs →
      wrap newsItemOfIntl (fun r => r.article) rs = .ok l →
      get_international_news w n = .ok l ∧ l.length ≤ n ∧
        (l.length < n ↔ (∃ r ∈ rs, ¬ truthy r.article) ∨ feed.length < n)) ∧
    (∀ (w : FeedWorld) n feed rs l,
      w.feedFetch = .ok feed →
      scrape_sports_top_n w n = .ok rs →
      wrap newsItemOfSports (fun r => r.article) rs = .ok l →
      get_sports_news w n = .ok l ∧ l.length ≤ n ∧
        (l.length < n ↔ (∃ r ∈ rs, ¬ truthy r.article) ∨ feed.length < n)) ∧
    (∀ (w : FeedWorld) n feed rs l,
      w.feedFetch = .ok feed →
      scrape_entertainment_top_n w n = .ok rs →
      wrap newsItemOfNat (fun r => r.article) rs = .ok l →
      get_entertainment_news w n = .ok l ∧ l.length ≤ n ∧
        (l.length < n ↔ (∃ r ∈ rs, ¬ truthy r.article) ∨ feed.length < n)) ∧
    (∀ (w : StatesWorld) sid n idx el u feed rs ilogs l,
      w.indexFetch = .ok idx →
      idx.find? (fun x => x.elemId == sid) = some el →
      el.href = some u →
      w.feedFetch u = .ok feed →
      statesItems w (feed.take n) = (.ok rs, ilogs) →
      wrap newsItemOfSt (fun r => r.article) rs = .ok l →
      get_states_news w sid n = .ok l ∧ l.length ≤ n ∧
        (l.length < n ↔ (∃ r ∈ rs, ¬ truthy r.article) ∨ feed.length < n)) := by
  refine ⟨?_, ?_, ?_, ?_, ?_⟩
  · intro w n feed rs l hfeed hscrape hwrap
    have hfa : forAppend (processNatItem w) (feed.take n) = .ok rs :=
      (scrape_national_unfold hfeed n) ▸ hscrape
    have hrs : rs.length = min n feed.length := by
      rw [forAppend_ok_length hfa, List.length_take]
    have hl : l.length = (rs.filter fun r => truthy r.article).length :=
      wrap_ok_length hwrap
    have hbs := bounded_size_core n feed.length
      (fun r => truthy r.article) rs hrs
    refine ⟨?_, ?_, ?_⟩
    · simp only [get_national_news, hscrape, Bind.bind, Except.bind]
      exact hwrap
    · rw [hl]; exact hbs.1
    · rw [hl]; exact hbs.2
  · intro w n feed rs l hfeed hscrape hwrap
    have hfa : forAppend (processIntlItem w) (feed.take n) = .ok rs :=
      (scrape_international_unfold hfeed n) ▸ hscrape
    have hrs : rs.length = min n feed.length := by
      rw [forAppend_ok_length hfa, List.length_take]
    have hl : l.length = (rs.filter fun r => truthy r.article).length :=
      wrap_ok_length hwrap
    have hbs := bounded_size_core n feed.length
      (fun r => truthy r.article) rs hrs
    refine ⟨?_, ?_, ?_⟩
    · simp only [get_international_news, hscrape, Bind.bind, Except.bind]
      exact hwrap
    · rw [hl]; exact hbs.1
    · rw [hl]; exact hbs.2
  · intro w n feed rs l hfeed hscrape hwrap
    have hfa : forAppend (processSportsItem w) (feed.take n) = .ok rs :=
      (scrape_sports_unfold hfeed n) ▸ hscrape
    have hrs : rs.length = min n feed.length := by
      rw [forAppend_ok_length hfa, List.length_take]
    have hl : l.length = (rs.filter fun r => truthy r.article).length :=
      wrap_ok_length hwrap
    have hbs := bounded_size_core n feed.length
      (fun r => truthy r.article) rs hrs
    refine ⟨?_, ?_, ?_⟩
    · simp only [get_sports_news, hscrape, Bind.bind, Except.bind]
      exact hwrap
    · rw [hl]; exact hbs.1
    · rw [hl]; exact hbs.2
  · intro w n feed rs l hfeed hscrape hwrap
    have hfa : forAppend (processNatItem w) (feed.take n) = .ok rs :=
      (scrape_entertainment_unfold hfeed n) ▸ hscrape
    have hrs : rs.length = min n feed.length := by
      rw [forAppend_ok_length hfa, List.length_take]
    have hl : l.length = (rs.filter fun r => truthy r.article).length :=
      wrap_ok_length hwrap
    have hbs := bounded_size_core n feed.length
      (fun r => truthy r.article) rs hrs
    refine ⟨?_, ?_, ?_⟩
    · simp only [get_entertainment_news, hscrape, Bind.bind, Except.bind]
      exact hwrap
    · rw [hl]; exact hbs.1
    · rw [hl]; exact hbs.2
  · intro w sid n idx el u feed rs ilogs l hidx hfind hhref hfeed hitems hwrap
    have hscr : scrape_states_top_n w sid n =
        (rs, StLog.fetchingRSS (some u) :: ilogs) := by
      simp [scrape_states_top_n, hidx, hfind, hhref, hfeed, hitems]
    have hrs : rs.length = min n feed.length := by
      rw [statesItems_ok_length hitems, List.length_take]
    have hl : l.length = (rs.filter fun r => truthy r.article).length :=
      wrap_ok_length hwrap
    have hbs := bounded_size_core n feed.length
      (fun r => truthy r.article) rs hrs
    refine ⟨?_, ?_, ?_⟩
    · simp only [get_states_news, hscr]
      exact hwrap
    · rw [hl]; exact hbs.1
    · rw [hl]; exact hbs.2

/-- Witness for C5 at the two-item national world (one extraction fails, so
one record survives `wrap`): the iff holds with the left disjunct. -/
theorem C5_bounded_size_witness :
    get_national_news wTwo 2 = .ok [newsOne] ∧
    [newsOne].length ≤ 2 ∧
    ([newsOne].length < 2 ↔
      (∃ r ∈ [recOne, recTwo], ¬ truthy r.article) ∨
        [itemOne, itemTwo].length < 2) :=
  C5_bounded_size.1 wTwo 2 [itemOne, itemTwo] [recOne, recTwo] [newsOne]
    rfl rfl rfl

/-- C6: the records produced by an agent-level aggregation call appear in
source-feed order: the scraper's record list mirrors the first `n` feed
items field-by-field in order, and the returned `NewsItem` list is exactly
the in-order filter of those records that keeps the ones with a truthy
article body — failed extractions are omitted, the rest keep their relative
order. -/
theorem C6_order_preserved :
    (∀ (w : FeedWorld) n feed rs l,
      w.feedFetch = .ok feed →
      scrape_national_top_n w n = .ok rs →
      wrap newsItemOfNat (fun r => r.article) rs = .ok l →
      rs.map (fun r => (some r.title, some r.link, r.date)) =
        (feed.take n).map (fun i => (i.title, i.link, i.pubDate)) ∧
      l.map (fun x => (x.title, x.link, some x.date, x.article)) =
        (rs.filter fun r => truthy r.article).map
          (fun r => (r.title, r.link, r.date, r.article))) ∧
    (∀ (w : FeedWorld) n feed rs l,
      w.feedFetch = .ok feed →
      scrape_international_top_n w n = .ok rs →
      wrap newsItemOfIntl (fun r => r.article) rs = .ok l →
      rs.map (fun r => (some r.title, some r.link, r.date)) =
        (feed.take n).map (fun i => (i.title, i.guid, i.pubDate)) ∧
      l.map (fun x => (x.title, x.link, some x.date, x.article)) =
        (rs.filter fun r => truthy r.article).map
          (fun r => (r.title, r.link, r.date, r.article))) ∧
    (∀ (w : FeedWorld) n feed rs l,
      w.feedFetch = .ok feed →
      scrape_sports_top_n w n = .ok rs →
      wrap newsItemOfSports (fun r => r.article) rs = .ok l →
      rs.map (fun r => (some r.title, some r.link, r.date)) =
        (feed.take n).map (fun i => (i.title, i.link, i.pubDate)) ∧
      l.map (fun x => (x.title, x.link, some x.date, x.article)) =
        (rs.filter fun r => truthy r.article).map
          (fun r => (r.title, r.link, r.date, r.article))) ∧
    (∀ (w : StatesWorld) sid n idx el u feed rs ilogs l,
      w.indexFetch = .ok idx →
      idx.find? (fun x => x.elemId == sid) = some el →
      el.href = some u →
      w.feedFetch u = .ok feed →
      statesItems w (feed.take n) = (.ok rs, ilogs) →
      wrap newsItemOfSt (fun r => r.article) rs = .ok l →
      rs.map (fun r => (some r.title, some r.link, r.date)) =
        (feed.take n).map (fun i => (i.title, i.link, i.pubDate)) ∧
      l.map (fun x => (x.title, x.link, some x.date, x.article)) =
        (rs.filter fun r => truthy r.article).map
          (fun r => (r.title, r.link, r.date, r.article))) := by
  refine ⟨?_, ?_, ?_, ?_⟩
  · intro w n feed rs l hfeed hscrape hwrap
    have hfa : forAppend (processNatItem w) (feed.take n) = .ok rs :=
      (scrape_national_unfold hfeed n) ▸ hscrape
    constructor
    · refine forAppend_ok_map _ _ ?_ hfa
      intro x y hxy
      obtain ⟨ht, hl, hd, -⟩ := processNatItem_ok hxy
      simp [ht, hl, hd]
    · refine forAppend_ok_map _ _ ?_ hwrap
      intro r y hy
      obtain ⟨d, hd, rfl⟩ := newsItemOfNat_ok hy
      simp [hd]
  · intro w n feed rs l hfeed hscrape hwrap
    have hfa : forAppend (processIntlItem w) (feed.take n) = .ok rs :=
      (scrape_international_unfold hfeed n) ▸ hscrape
    constructor
    · refine forAppend_ok_map _ _ ?_ hfa
      intro x y hxy
      obtain ⟨ht, hl, hd, -⟩ := processIntlItem_ok hxy
      simp [ht, hl, hd]
    · refine forAppend_ok_map _ _ ?_ hwrap
      intro r y hy
      obtain ⟨d, hd, rfl⟩ := newsItemOfIntl_ok hy
      simp [hd]
  · intro w n feed rs l hfeed hscrape hwrap
    have hfa : forAppend (processSportsItem w) (feed.take n) = .ok rs :=
      (scrape_sports_unfold hfeed n) ▸ hscrape
    constructor
    · refine forAppend_ok_map _ _ ?_ hfa
      intro x y hxy
      obtain ⟨ht, hl, hd, -⟩ := processSportsItem_ok hxy
      simp [ht, hl, hd]
    · refine forAppend_ok_map _ _ ?_ hwrap
      intro r y hy
      obtain ⟨d, hd, rfl⟩ := newsItemOfSports_ok hy
      simp [hd]
  · intro w sid n idx el u feed rs ilogs l hidx hfind hhref hfeed hitems hwrap
    constructor
    · have hproj := statesItems_ok_proj hitems
      have := congrArg
        (List.map (fun t : Option String × Option String × Option String ×
          Option String × Option String => (t.1, t.2.1, t.2.2.1))) hproj
      simpa [List.map_map, Function.comp] using this
    · refine forAppend_ok_map _ _ ?_ hwrap
      intro r y hy
      obtain ⟨d, hd, rfl⟩ := newsItemOfSt_ok hy
      simp [hd]

/-- Witness for C6 at the two-item national world: the record list mirrors
the feed order and the returned list is its in-order body-keeping filter. -/
theorem C6_order_preserved_witness :
    [recOne, recTwo].map (fun r => (some r.title, some r.link, r.date)) =
      ([itemOne, itemTwo].take 2).map (fun i => (i.title, i.link, i.pubDate)) ∧
    [newsOne].map (fun x => (x.title, x.link, some x.date, x.article)) =
      ([recOne, recTwo].filter fun r => truthy r.article).map
        (fun r => (r.title, r.link, r.date, r.article)) :=
  C6_order_preserved.1 wTwo 2 [itemOne, itemTwo] [recOne, recTwo] [newsOne]
    rfl rfl rfl
